import Mathlib

/-!
Verification of the `perf_timer` architecture layer (`src/perf_timer/src/arch.rs`).

The module exposes a trait `ArchFunctionality` with four operations and two
implementations: `X64` (time-stamp counter, frequency derived from CPUID
leaves, memoized in a process-wide atomic) and `Aarch64` (direct register
reads).  The hardware is modelled as an environment mapping a CPUID leaf
number to the four 32-bit registers returned by the `cpuid` instruction; the
process-wide `CPU_FREQUENCY: AtomicU64` slot is modelled as an explicit
`cache : Nat` argument threaded through, and side effects (log lines, the
leaves queried, whether `rdtsc` was issued) are made explicit fields of the
result so that claims about them can be stated.

Rust `u32` arithmetic in `(ecx * (ebx / eax)) as u64` is modelled with the
release-build semantics: the product is taken modulo 2^32 (the operands are
`u32`, so the multiplication wraps before the cast widens the value), and a
division by zero (`eax == 0` on the `ecx != 0` path) is a panic in every
build mode, modelled as `Option.none`.
-/

/-- The four 32-bit registers returned by one `cpuid` query
(`core::arch::x86_64::CpuidResult`). -/
structure CpuidResult where
  eax : Nat
  ebx : Nat
  ecx : Nat
  edx : Nat
deriving DecidableEq, Repr

/-- A hardware environment: the (fixed) answer of the `cpuid` instruction for
each leaf number. -/
def Cpuid : Type := Nat → CpuidResult

/-- Constant `QEMU_DEFAULT_FREQUENCY: u64 = 3579545` — the ACPI-timer
fallback used when CPUID-based frequency determination is unavailable. -/
def QEMU_DEFAULT_FREQUENCY : Nat := 3579545

/-- Result of one call to `X64::cpu_count_frequency`:
the returned `u64` (`none` models a panic), the contents of the
`CPU_FREQUENCY` atomic after the call, the log lines emitted
(format arguments elided, the static text kept), and the list of CPUID
leaves queried, in order. -/
structure FreqResult where
  value : Option Nat
  cache : Nat
  logs : List String
  queries : List Nat
deriving DecidableEq, Repr

/-- Result of one call to `X64::cpu_count`: the returned `u64`
(`none` models the `panic!` aborts of the validation path) and whether the
`_rdtsc` instruction was issued. -/
structure CountResult where
  value : Option Nat
  tscRead : Bool
deriving DecidableEq, Repr

namespace X64

/-- Embedding of `X64::cpu_count`.  `validate` is the
`validate_cpu_features` feature flag; `env` answers the CPUID queries;
`tsc` is the value `_rdtsc` would return.  With validation on, leaf 1
`edx` bit 4 (TSC) and leaf 0x80000007 `edx` bit 8 (invariant TSC) are
checked; a missing bit panics before `_rdtsc` is issued. -/
def cpu_count (validate : Bool) (env : Cpuid) (tsc : Nat) : CountResult :=
  if validate then
    if (env 0x01).edx &&& 0x10 ≠ 0x10 then
      ⟨none, false⟩
    else if (env 0x80000007).edx &&& 0x100 ≠ 0x100 then
      ⟨none, false⟩
    else
      ⟨some tsc, true⟩
  else
    ⟨some tsc, true⟩

/-- Embedding of `X64::cpu_count_frequency`, line by line:
query leaf 0x16 and log its `eax` when nonzero; load the `CPU_FREQUENCY`
atomic and return it when nonzero; otherwise query leaf 0x15 giving the
ratio denominator `eax`, numerator `ebx` and crystal-clock Hz `ecx`;
when `ecx == 0` (warn under validation and) use `QEMU_DEFAULT_FREQUENCY`,
otherwise compute `(ecx * (ebx / eax)) as u64` in `u32` arithmetic —
a panic when `eax == 0`, wrapping modulo 2^32 otherwise; store the result
in the atomic, log it and return it. -/
def cpu_count_frequency (validate : Bool) (env : Cpuid) (cache : Nat) :
    FreqResult :=
  let c16 := env 0x16
  let logs16 :=
    if c16.eax ≠ 0 then ["CPU frequency from leaf 0x16"] else []
  if cache ≠ 0 then
    ⟨some cache, cache, logs16, [0x16]⟩
  else
    let c15 := env 0x15
    if c15.ecx = 0 then
      let logsWarn :=
        if validate then
          ["CPU does not support CPUID-based frequency determination"]
        else []
      ⟨some QEMU_DEFAULT_FREQUENCY, QEMU_DEFAULT_FREQUENCY,
        logs16 ++ logsWarn ++ ["CPU frequency from leaf 0x15"],
        [0x16, 0x15]⟩
    else if c15.eax = 0 then
      ⟨none, cache, logs16, [0x16, 0x15]⟩
    else
      let frequency := (c15.ecx * (c15.ebx / c15.eax)) % 4294967296
      ⟨some frequency, frequency,
        logs16 ++ ["CPU frequency from leaf 0x15"],
        [0x16, 0x15]⟩

/-- The `impl ArchFunctionality for X64` does not override
`cpu_count_start`: the trait default `0` applies. -/
def cpu_count_start : Nat := 0

/-- The `impl ArchFunctionality for X64` does not override
`cpu_count_end`: the trait default `u64::MAX` applies. -/
def cpu_count_end : Nat := 2 ^ 64 - 1

end X64

namespace Aarch64

/-- Embedding of `Aarch64::cpu_count`: returns the value of the
`CNTPCT_EL0` register, taken as an oracle argument. -/
def cpu_count (cntpct : Nat) : Nat := cntpct

/-- Embedding of `Aarch64::cpu_count_frequency`: returns the value of the
`CNTFRQ_EL0` register, taken as an oracle argument. -/
def cpu_count_frequency (cntfrq : Nat) : Nat := cntfrq

/-- The `impl ArchFunctionality for Aarch64` does not override
`cpu_count_start`: the trait default `0` applies. -/
def cpu_count_start : Nat := 0

/-- The `impl ArchFunctionality for Aarch64` does not override
`cpu_count_end`: the trait default `u64::MAX` applies. -/
def cpu_count_end : Nat := 2 ^ 64 - 1

end Aarch64

/-- A concrete environment whose leaf-0x15 answer is the given three
registers (denominator, numerator, crystal clock), zero elsewhere. -/
def envLeaf15 (a b c : Nat) : Cpuid := fun leaf =>
  if leaf = 0x15 then ⟨a, b, c, 0⟩ else ⟨0, 0, 0, 0⟩

/-- A concrete environment answering both leaf 0x15 (three registers as in
`envLeaf15`) and leaf 0x16 (`eax` = the advisory MHz value), zero
elsewhere. -/
def envLeaf1516 (a b c e16 : Nat) : Cpuid := fun leaf =>
  if leaf = 0x15 then ⟨a, b, c, 0⟩
  else if leaf = 0x16 then ⟨e16, 0, 0, 0⟩
  else ⟨0, 0, 0, 0⟩

/-- C5: with leaf-0x15 data denominator = 2, numerator = 200, crystal
clock = 24000000 Hz and an empty cache, `X64::cpu_count_frequency` returns
24000000 * (200 / 2) = 2400000000. -/
theorem c5_ratio_correctness :
    (X64.cpu_count_frequency false (envLeaf15 2 200 24000000) 0).value
      = some 2400000000 ∧
    (X64.cpu_count_frequency false (envLeaf15 2 200 24000000) 0).cache
      = 2400000000 := by
  decide

/-- C10: neither implementation overrides the `ArchFunctionality` defaults:
`cpu_count_start()` is 0 and `cpu_count_end()` is the maximum representable
unsigned 64-bit value, on both x86 and ARM. -/
theorem c10_default_bounds :
    X64.cpu_count_start = 0 ∧
    X64.cpu_count_end = 2 ^ 64 - 1 ∧
    X64.cpu_count_end = 18446744073709551615 ∧
    Aarch64.cpu_count_start = 0 ∧
    Aarch64.cpu_count_end = 2 ^ 64 - 1 ∧
    Aarch64.cpu_count_end = 18446744073709551615 := by
  refine ⟨rfl, rfl, by decide, rfl, rfl, by decide⟩

/-- C1: the product in `X64::cpu_count_frequency` is computed in 32-bit
arithmetic, so it IS truncated modulo 2^32 before the `as u64` cast: with
leaf-0x15 data denominator = 1, numerator = 2, crystal clock = 3000000000 Hz
the operation returns 6000000000 % 2^32 = 1705032704, not the untruncated
64-bit product 3000000000 * (2 / 1) = 6000000000 the claim requires. -/
theorem c1_product_truncated :
    (X64.cpu_count_frequency false (envLeaf15 1 2 3000000000) 0).value
      = some 1705032704 ∧
    (1705032704 : Nat) ≠ 3000000000 * (2 / 1) := by
  decide

/-- C2 counterexample: with leaf-0x15 data denominator (eax) = 0 and crystal
clock (ecx) = 1 ≠ 0 and an empty cache, `X64::cpu_count_frequency` reaches
`ebx / eax` with a zero divisor and panics — it does not return a value, so
the operation is not total. -/
theorem c2_counterexample :
    (X64.cpu_count_frequency false (envLeaf15 0 1 1) 0).value = none := by
  decide

/-- C3 counterexample: after a first call to `X64::cpu_count_frequency`
populates the cache, the second consecutive call still performs a processor
identification query — the informational leaf 0x16 is queried before the
cache check on every call — so its query list is `[0x16]`, not empty. -/
theorem c3_counterexample :
    (X64.cpu_count_frequency false (envLeaf15 1 1 0)
        ((X64.cpu_count_frequency false (envLeaf15 1 1 0) 0).cache)).queries
      = [0x16] ∧
    ([0x16] : List Nat) ≠ [] := by
  decide

/-- C4: whenever the leaf-0x15 crystal-clock field (ecx) is zero and the
cache is empty, `X64::cpu_count_frequency` returns exactly 3579545 and
stores exactly 3579545 in the frequency cache slot, with or without the
validation feature. -/
theorem c4_fallback (validate : Bool) (env : Cpuid)
    (h : (env 0x15).ecx = 0) :
    (X64.cpu_count_frequency validate env 0).value = some 3579545 ∧
    (X64.cpu_count_frequency validate env 0).cache = 3579545 := by
  simp [X64.cpu_count_frequency, h, QEMU_DEFAULT_FREQUENCY]

theorem c4_fallback_witness :
    ((envLeaf15 1 1 0) 0x15).ecx = 0 ∧
    ((X64.cpu_count_frequency true (envLeaf15 1 1 0) 0).value
        = some 3579545 ∧
      (X64.cpu_count_frequency true (envLeaf15 1 1 0) 0).cache = 3579545) :=
  ⟨by decide, c4_fallback true (envLeaf15 1 1 0) (by decide)⟩

/-- C6: once the frequency cache slot holds a non-zero value, every call to
`X64::cpu_count_frequency` returns exactly that value and leaves the slot
unchanged, for every environment and either setting of the validation
feature. -/
theorem c6_cache_write_once (validate : Bool) (env : Cpuid) (cache : Nat)
    (h : cache ≠ 0) :
    (X64.cpu_count_frequency validate env cache).value = some cache ∧
    (X64.cpu_count_frequency validate env cache).cache = cache := by
  simp [X64.cpu_count_frequency, h]

theorem c6_cache_write_once_witness :
    (5 : Nat) ≠ 0 ∧
    ((X64.cpu_count_frequency false (envLeaf15 2 200 24000000) 5).value
        = some 5 ∧
      (X64.cpu_count_frequency false (envLeaf15 2 200 24000000) 5).cache
        = 5) :=
  ⟨by decide, c6_cache_write_once false (envLeaf15 2 200 24000000) 5
    (by decide)⟩

/-- C7: for any leaf-0x15 data with a nonzero crystal clock and a nonzero
denominator strictly greater than the numerator, the integer ratio is 0, so
`X64::cpu_count_frequency` on an empty cache returns 0 and stores 0 — the
"not yet computed" sentinel — so the cache stays unpopulated and the next
call performs the leaf-0x15 derivation again instead of the fast path. -/
theorem c7_zero_ratio (validate : Bool) (env : Cpuid)
    (ha : (env 0x15).eax ≠ 0) (hb : (env 0x15).ebx < (env 0x15).eax)
    (hc : (env 0x15).ecx ≠ 0) :
    (X64.cpu_count_frequency validate env 0).value = some 0 ∧
    (X64.cpu_count_frequency validate env 0).cache = 0 ∧
    0x15 ∈ (X64.cpu_count_frequency validate env
      ((X64.cpu_count_frequency validate env 0).cache)).queries := by
  have hdiv : (env 0x15).ebx / (env 0x15).eax = 0 := Nat.div_eq_of_lt hb
  simp [X64.cpu_count_frequency, ha, hc, hdiv]

theorem c7_zero_ratio_witness :
    ((envLeaf15 2 1 5) 0x15).eax ≠ 0 ∧
    ((envLeaf15 2 1 5) 0x15).ebx < ((envLeaf15 2 1 5) 0x15).eax ∧
    ((envLeaf15 2 1 5) 0x15).ecx ≠ 0 ∧
    ((X64.cpu_count_frequency false (envLeaf15 2 1 5) 0).value = some 0 ∧
      (X64.cpu_count_frequency false (envLeaf15 2 1 5) 0).cache = 0 ∧
      0x15 ∈ (X64.cpu_count_frequency false (envLeaf15 2 1 5)
        ((X64.cpu_count_frequency false (envLeaf15 2 1 5) 0).cache)).queries) :=
  ⟨by decide, by decide, by decide,
    c7_zero_ratio false (envLeaf15 2 1 5) (by decide) (by decide) (by decide)⟩

/-- C2 (amended): every operation other than the validation-gated fatal
path returns a value — counter reads with validation off, counter reads
with validation on whenever both capability bits are present, and the ARM
register reads are total — and `X64::cpu_count_frequency` returns a value
on every input except the one the counterexample exhibits: a leaf-0x15
result with nonzero crystal clock (ecx) but zero denominator (eax) reached
with an empty cache, where `ebx / eax` divides by zero and the call
aborts. -/
theorem c2_totality (validate : Bool) (env : Cpuid) (cache : Nat)
    (h : cache ≠ 0 ∨ (env 0x15).ecx = 0 ∨ (env 0x15).eax ≠ 0) :
    ((X64.cpu_count_frequency validate env cache).value).isSome = true ∧
    (∀ venv tsc, (X64.cpu_count false venv tsc).value = some tsc) ∧
    (∀ venv tsc, (venv 0x01).edx &&& 0x10 = 0x10 →
      (venv 0x80000007).edx &&& 0x100 = 0x100 →
      (X64.cpu_count true venv tsc).value = some tsc) ∧
    (∀ cntpct, Aarch64.cpu_count cntpct = cntpct) ∧
    (∀ cntfrq, Aarch64.cpu_count_frequency cntfrq = cntfrq) := by
  refine ⟨?_, fun venv tsc => rfl, fun venv tsc h1 h2 => ?_,
    fun c => rfl, fun c => rfl⟩
  · by_cases hcz : cache = 0
    · subst hcz
      by_cases he : (env 0x15).ecx = 0
      · simp [X64.cpu_count_frequency, he]
      · have ha : (env 0x15).eax ≠ 0 := by
          rcases h with h | h | h
          · exact absurd rfl h
          · exact absurd h he
          · exact h
        simp [X64.cpu_count_frequency, he, ha]
    · simp [X64.cpu_count_frequency, hcz]
  · simp [X64.cpu_count, h1, h2]

theorem c2_totality_witness :
    ((0 : Nat) ≠ 0 ∨ ((envLeaf15 0 0 0) 0x15).ecx = 0 ∨
      ((envLeaf15 0 0 0) 0x15).eax ≠ 0) ∧
    (((X64.cpu_count_frequency false (envLeaf15 0 0 0) 0).value).isSome
        = true ∧
      (∀ venv tsc, (X64.cpu_count false venv tsc).value = some tsc) ∧
      (∀ venv tsc, (venv 0x01).edx &&& 0x10 = 0x10 →
        (venv 0x80000007).edx &&& 0x100 = 0x100 →
        (X64.cpu_count true venv tsc).value = some tsc) ∧
      (∀ cntpct, Aarch64.cpu_count cntpct = cntpct) ∧
      (∀ cntfrq, Aarch64.cpu_count_frequency cntfrq = cntfrq)) :=
  ⟨Or.inr (Or.inl (by decide)),
    c2_totality false (envLeaf15 0 0 0) 0 (Or.inr (Or.inl (by decide)))⟩

/-- C3 (amended): whenever a call to `X64::cpu_count_frequency` returns a
value, an immediately following call in the same environment returns the
identical value; and whenever the first call left a nonzero cache, the
second call performs no new leaf-0x15 derivation query — but it does still
issue the informational leaf-0x16 query, which precedes the cache check on
every call. -/
theorem c3_idempotent (validate : Bool) (env : Cpuid) (cache x : Nat)
    (h : (X64.cpu_count_frequency validate env cache).value = some x) :
    (X64.cpu_count_frequency validate env
        ((X64.cpu_count_frequency validate env cache).cache)).value
      = some x ∧
    0x16 ∈ (X64.cpu_count_frequency validate env
        ((X64.cpu_count_frequency validate env cache).cache)).queries ∧
    ((X64.cpu_count_frequency validate env cache).cache ≠ 0 →
      0x15 ∉ (X64.cpu_count_frequency validate env
        ((X64.cpu_count_frequency validate env cache).cache)).queries) := by
  by_cases hcz : cache = 0
  · subst hcz
    by_cases he : (env 0x15).ecx = 0
    · simp [X64.cpu_count_frequency, he, QEMU_DEFAULT_FREQUENCY] at h ⊢
      omega
    · by_cases ha : (env 0x15).eax = 0
      · simp [X64.cpu_count_frequency, he, ha] at h
      · by_cases hf :
          ((env 0x15).ecx * ((env 0x15).ebx / (env 0x15).eax))
            % 4294967296 = 0
        · simp [X64.cpu_count_frequency, he, ha, hf] at h ⊢
          omega
        · simp [X64.cpu_count_frequency, he, ha, hf] at h ⊢
          omega
  · simp [X64.cpu_count_frequency, hcz] at h ⊢
    omega

theorem c3_idempotent_witness :
    (X64.cpu_count_frequency false (envLeaf15 2 200 24000000) 0).value
      = some 2400000000 ∧
    ((X64.cpu_count_frequency false (envLeaf15 2 200 24000000)
        ((X64.cpu_count_frequency false (envLeaf15 2 200 24000000) 0).cache)).value
      = some 2400000000 ∧
    0x16 ∈ (X64.cpu_count_frequency false (envLeaf15 2 200 24000000)
        ((X64.cpu_count_frequency false (envLeaf15 2 200 24000000) 0).cache)).queries ∧
    ((X64.cpu_count_frequency false (envLeaf15 2 200 24000000) 0).cache ≠ 0 →
      0x15 ∉ (X64.cpu_count_frequency false (envLeaf15 2 200 24000000)
        ((X64.cpu_count_frequency false (envLeaf15 2 200 24000000) 0).cache)).queries)) :=
  ⟨by decide,
    c3_idempotent false (envLeaf15 2 200 24000000) 0 2400000000 (by decide)⟩

/-- C8: with the `validate_cpu_features` flag on, `X64::cpu_count` aborts
without issuing `_rdtsc` whenever leaf-1 edx bit 4 (TSC) or leaf-0x80000007
edx bit 8 (invariant TSC) is absent, and with both bits present it issues
`_rdtsc` and returns its value. -/
theorem c8_fatal_path (env : Cpuid) (tsc : Nat) :
    (((env 0x01).edx &&& 0x10 ≠ 0x10 ∨
        (env 0x80000007).edx &&& 0x100 ≠ 0x100) →
      (X64.cpu_count true env tsc).value = none ∧
      (X64.cpu_count true env tsc).tscRead = false) ∧
    ((env 0x01).edx &&& 0x10 = 0x10 →
      (env 0x80000007).edx &&& 0x100 = 0x100 →
      (X64.cpu_count true env tsc).value = some tsc ∧
      (X64.cpu_count true env tsc).tscRead = true) := by
  constructor
  · intro h
    rcases h with h | h
    · simp [X64.cpu_count, h]
    · by_cases h1 : (env 0x01).edx &&& 0x10 = 0x10
      · simp [X64.cpu_count, h1, h]
      · simp [X64.cpu_count, h1]
  · intro h1 h2
    simp [X64.cpu_count, h1, h2]

theorem c8_fatal_path_witness :
    (((envLeaf15 0 0 0) 0x01).edx &&& 0x10 ≠ 0x10 ∨
      ((envLeaf15 0 0 0) 0x80000007).edx &&& 0x100 ≠ 0x100) ∧
    ((X64.cpu_count true (envLeaf15 0 0 0) 7).value = none ∧
      (X64.cpu_count true (envLeaf15 0 0 0) 7).tscRead = false) :=
  ⟨Or.inl (by decide),
    (c8_fatal_path (envLeaf15 0 0 0) 7).1 (Or.inl (by decide))⟩

/-- C9: the returned frequency and the resulting cache contents of
`X64::cpu_count_frequency` are the same with the validation feature on and
off, and depend on the environment only through the leaf-0x15 answer: two
environments agreeing on leaf 0x15 (but free to differ on the informational
leaf 0x16, used solely for logging) give identical values and caches for
every cache state. -/
theorem c9_validation_transparent (env env2 : Cpuid) (cache : Nat)
    (h : env 0x15 = env2 0x15) :
    (X64.cpu_count_frequency true env cache).value
      = (X64.cpu_count_frequency false env2 cache).value ∧
    (X64.cpu_count_frequency true env cache).cache
      = (X64.cpu_count_frequency false env2 cache).cache := by
  by_cases hcz : cache = 0
  · subst hcz
    by_cases he : (env 0x15).ecx = 0
    · have he2 : (env2 0x15).ecx = 0 := by rw [← h]; exact he
      simp [X64.cpu_count_frequency, he, he2]
    · have he2 : (env2 0x15).ecx ≠ 0 := by rw [← h]; exact he
      by_cases ha : (env 0x15).eax = 0
      · have ha2 : (env2 0x15).eax = 0 := by rw [← h]; exact ha
        simp [X64.cpu_count_frequency, he, he2, ha, ha2]
      · have ha2 : (env2 0x15).eax ≠ 0 := by rw [← h]; exact ha
        simp [X64.cpu_count_frequency, he, he2, ha, ha2, h]
  · simp [X64.cpu_count_frequency, hcz]

theorem c9_validation_transparent_witness :
    (envLeaf1516 2 200 24000000 2400) 0x15 = (envLeaf15 2 200 24000000) 0x15 ∧
    ((X64.cpu_count_frequency true (envLeaf1516 2 200 24000000 2400) 0).value
        = (X64.cpu_count_frequency false (envLeaf15 2 200 24000000) 0).value ∧
      (X64.cpu_count_frequency true (envLeaf1516 2 200 24000000 2400) 0).cache
        = (X64.cpu_count_frequency false (envLeaf15 2 200 24000000) 0).cache) :=
  ⟨by decide,
    c9_validation_transparent (envLeaf1516 2 200 24000000 2400)
      (envLeaf15 2 200 24000000) 0 (by decide)⟩
